import Mathlib

/-!
Verification of the `AlphaBaiter/enterprise2` deployment and helpdesk
customization layer.  Each Python source file is shallowly embedded as
executable Lean definitions, translated statement by statement from the
source; the theorems at the end of the file settle the frozen claims
about the specification.
-/

set_option autoImplicit false

namespace Enterprise2

/-! ## Generic Python-semantics helpers shared by the embeddings -/

/-- Python whitespace characters recognised by `str.strip()` / `str.split()`
(ASCII fragment: space, tab, newline, carriage return, vertical tab, form feed). -/
def pyIsSpace (c : Char) : Bool :=
  c = ' ' || c = '\t' || c = '\n' || c = '\r' || c = '\x0b' || c = '\x0c'

/-- Python `str.strip()` with no argument: remove leading and trailing whitespace. -/
def pyStrip (s : String) : String :=
  ⟨((s.data.dropWhile pyIsSpace).reverse.dropWhile pyIsSpace).reverse⟩

/-- Python `str.lower()` (ASCII fragment, via `Char.toLower`). -/
def pyLower (s : String) : String :=
  ⟨s.data.map Char.toLower⟩

/-- Is `needle` a prefix of `hay` (over character lists)? -/
def listIsPre : List Char → List Char → Bool
  | [], _ => true
  | _ :: _, [] => false
  | a :: ns, b :: hs => a == b && listIsPre ns hs

/-- Is `needle` a contiguous substring of `hay`?  Models Python's
`needle in hay` test on strings. -/
def listIsSub (needle : List Char) : List Char → Bool
  | [] => match needle with | [] => true | _ :: _ => false
  | b :: hs => listIsPre needle (b :: hs) || listIsSub needle hs

/-- Python `needle in hay` on strings. -/
def strContains (hay needle : String) : Bool :=
  listIsSub needle.data hay.data

/-- Python `c in s` for a single character. -/
def strHasChar (s : String) (c : Char) : Bool :=
  s.data.contains c

/-- Worker for `dedupKeepFirst`, carrying the `seen` accumulator. -/
def dedupKeepFirstAux {α : Type} [DecidableEq α] (seen : List α) : List α → List α
  | [] => []
  | x :: xs =>
      if x ∈ seen then dedupKeepFirstAux seen xs
      else x :: dedupKeepFirstAux (x :: seen) xs

/-- Deduplicate a list preserving the first occurrence of each element;
models the `seen = set(); ...` loop idiom used throughout the repository. -/
def dedupKeepFirst {α : Type} [DecidableEq α] (l : List α) : List α :=
  dedupKeepFirstAux [] l

/-! ## `connect-odoo.py`: the configuration-parameter setter (`_ensure_param`) -/

/-- State of the `ir.config_parameter` key-value store (the external ORM
collaborator): an association list, most recent binding first. -/
structure IcpState where
  params : List (String × String)
deriving DecidableEq

/-- Source `icp.get_param(key)`: the stored value, if any. -/
def get_param (st : IcpState) (key : String) : Option String :=
  (st.params.find? (fun p => p.1 = key)).map (·.2)

/-- Source `icp.set_param(key, value)`: store the value verbatim (most recent
binding shadows older ones). -/
def set_param (st : IcpState) (key value : String) : IcpState :=
  ⟨(key, value) :: st.params⟩

/-- Source `_ensure_param(env, key, value)` from `connect-odoo.py`:

    current = (icp.get_param(key) or "").strip()
    if current == value: return False
    icp.set_param(key, value); return True

Returns the reported "changed" flag together with the resulting store. -/
def ensure_param (st : IcpState) (key value : String) : Bool × IcpState :=
  let current := pyStrip ((get_param st key).getD "")
  if current = value then (false, st)
  else (true, set_param st key value)

/-! ## `n8n/.../stage/post-init/bootstrap.py`: the workflow-tool bootstrapper -/

/-- Parsed JSON values, as produced by `json.loads` in the bootstrapper. -/
inductive Json where
  | null
  | bool (b : Bool)
  | num (n : Int)
  | str (s : String)
  | arr (xs : List Json)
  | obj (kvs : List (String × Json))

/-- Python `d.get(k)` on a parsed JSON value.  For a non-dict value Python
would raise `AttributeError`; the claims only exercise dict-shaped values,
and we return `none` there. -/
def Json.get : Json → String → Option Json
  | .obj kvs, k => (kvs.find? (fun p => p.1 = k)).map (·.2)
  | _, _ => none

/-- Python `k in d` key-membership test on a parsed JSON dict. -/
def Json.hasKey : Json → String → Bool
  | .obj kvs, k => kvs.any (fun p => p.1 = k)
  | _, _ => false

/-- Python truthiness of a parsed JSON value. -/
def Json.truthy : Json → Bool
  | .null => false
  | .bool b => b
  | .num n => n ≠ 0
  | .str s => s ≠ ""
  | .arr xs => !xs.isEmpty
  | .obj kvs => !kvs.isEmpty

/-- Is the value a dict (`isinstance(x, dict)`)? -/
def Json.isDict : Json → Bool
  | .obj _ => true
  | _ => false

/-- Python `bool(opt)` where `opt` is the result of a `.get` (absent key
yields `None`, which is falsy). -/
def pyBoolOpt (o : Option Json) : Bool :=
  match o with
  | some v => v.truthy
  | none => false

/-- Python `a or b` on JSON values (truthiness-based selection). -/
def pyOr (a b : Json) : Json :=
  if a.truthy then a else b

/-- Source `main`, lines 157-159: unwrap the `data` envelope used by newer
versions — `if isinstance(settings.get("data"), dict): settings = settings.get("data")`. -/
def unwrapData (settings : Json) : Json :=
  match settings.get "data" with
  | some d => if d.isDict then d else settings
  | none => settings

/-- Source `main`, lines 160-171 (after the `data` unwrap): the
"owner already configured" detection over the settings payload.

    um = settings.get("userManagement") or {}
    is_owner_setup = bool(um.get("isInstanceOwnerSetUp")) or bool(um.get("isInstanceOwnerInitialized"))
    if "showSetupOnFirstLoad" in um:
        is_owner_setup = is_owner_setup or (um.get("showSetupOnFirstLoad") is False)

The `is False` identity test holds exactly for the JSON boolean `false`. -/
def ownerFlags (settings : Json) : Bool :=
  let um := match settings.get "userManagement" with
    | some v => if v.truthy then v else Json.obj []
    | none => Json.obj []
  let base := pyBoolOpt (um.get "isInstanceOwnerSetUp")
      || pyBoolOpt (um.get "isInstanceOwnerInitialized")
  if um.hasKey "showSetupOnFirstLoad" then
    base || (match um.get "showSetupOnFirstLoad" with
             | some (Json.bool false) => true
             | _ => false)
  else base

/-- The full owner check applied to a raw settings payload (data unwrap
followed by the flag inspection, as `main` does at lines 157-174). -/
def isOwnerSetup (settings : Json) : Bool :=
  ownerFlags (unwrapData settings)

/-- Source `(body or {}).get("message", "")`: the vendor message of a JSON
response body (non-string messages are not exercised by the claims). -/
def msgOf (body : Json) : String :=
  match (if body.truthy then body else Json.obj []).get "message" with
  | some (Json.str s) => s
  | _ => ""

/-- Source `"already" in s.lower() or "initialized" in s.lower()`: the
conflict/already-done marker test applied to vendor messages and
HTTP error bodies throughout `main`. -/
def alreadyMarker (s : String) : Bool :=
  strContains (pyLower s) "already" || strContains (pyLower s) "initialized"

/-- Outcome of one `urllib` HTTP call: a returned response (urllib only
returns for status codes below 400), a raised `HTTPError` carrying the
status code and the decoded body, or any other raised exception. -/
inductive HttpOutcome where
  | ok (status : Nat) (body : Json)
  | httpError (code : Nat) (detail : String)
  | netError

/-- The network as seen by the bootstrapper after a base URL is fixed:
`post path` is the outcome of `_http_json_post(base_url + path, payload)`,
and `recheck` is the eventual outcome of re-polling the settings endpoint
via `_wait_for_ready` (the timed retry loop is abstracted to its final
outcome: `some settings` when a parseable payload arrives before the
deadline, `none` when the call raises). -/
structure NetEnv where
  post : String → HttpOutcome
  recheck : Option Json

/-- One owner-setup POST attempt together with its outcome, recorded for
the attempt log used by the theorems. -/
abbrev Attempt := String × HttpOutcome

/-- The re-check blocks of `main` (lines 236-254 and 312-331): re-poll the
settings endpoint and test the owner flags; any failure is swallowed. -/
def ownerRecheckOk (net : NetEnv) : Bool :=
  match net.recheck with
  | some s => isOwnerSetup s
  | none => false

/-- Source `str.strip("/")`: strip slash characters from both ends. -/
def pyStripSlashes (s : String) : String :=
  ⟨((s.data.dropWhile (· = '/')).reverse.dropWhile (· = '/')).reverse⟩

/-- Python `str(x)` on the scalar JSON values reachable in
`rest_prefix` computation (containers never occur there: the settings
`endpoint`/`restEndpoint` fields are strings when present). -/
def pyStr : Json → String
  | .str s => s
  | .bool true => "True"
  | .bool false => "False"
  | .null => "None"
  | .num n => toString n
  | .arr _ => ""
  | .obj _ => ""

/-- Source `main`, line 177: the REST base prefix
`"/" + str((settings.get("endpoint") or settings.get("restEndpoint") or "rest").strip("/"))`
(`.get` of an absent key yields `None`, which is falsy). -/
def restBaseOf (settings : Json) : String :=
  "/" ++ pyStripSlashes (pyStr (pyOr ((settings.get "endpoint").getD Json.null)
      (pyOr ((settings.get "restEndpoint").getD Json.null) (Json.str "rest"))))

/-- Source `main`, lines 261-282: the fallback endpoint candidates, deduplicated
preserving order. -/
def fallbackPaths (restBase : String) : List String :=
  dedupKeepFirst
    [restBase ++ "/owner/setup",
     restBase ++ "/user-management/setup",
     restBase ++ "/setup",
     restBase ++ "/users",
     restBase ++ "/user-management/users",
     "/owner/setup",
     "/user-management/setup",
     "/setup",
     "/users",
     "/user-management/users",
     "/api/v1/owner/setup",
     "/api/v1/setup",
     "/api/v1/user-management/setup"]

/-- One iteration of the fallback probe loop (`main`, lines 283-311):
classify the outcome of POSTing to one candidate path.  `prev` is the
result of continuing with the remaining paths: a 200/201 is success, a
400/409 `HTTPError` with the already/initialized marker is success, a
401/403 or 404 moves on to the next path, anything else is fatal. -/
def fallbackStep (p : String) (r : HttpOutcome) (prev : Nat × List Attempt) :
    Nat × List Attempt :=
  match r with
  | .ok st b =>
      if st = 200 || st = 201 then (0, [(p, .ok st b)])
      else (prev.1, (p, .ok st b) :: prev.2)
  | .httpError c2 d2 =>
      if (c2 = 400 || c2 = 409) && alreadyMarker d2 then (0, [(p, .httpError c2 d2)])
      else if c2 = 401 || c2 = 403 then (prev.1, (p, .httpError c2 d2) :: prev.2)
      else if c2 ≠ 404 then (1, [(p, .httpError c2 d2)])
      else (prev.1, (p, .httpError c2 d2) :: prev.2)
  | .netError => (1, [(p, .netError)])

/-- Source `main`, lines 283-334: the fallback probe loop over the candidate
paths, followed by the final settings re-check.  Returns the exit code
and the ordered log of POST attempts made. -/
def fallbackLoop (net : NetEnv) : List String → Nat × List Attempt
  | [] => (if ownerRecheckOk net then 0 else 1, [])
  | p :: rest => fallbackStep p (net.post p) (fallbackLoop net rest)

/-- Source `main`, lines 228-336: the outer `except urllib.error.HTTPError`
handler around the three primary attempts.  For a 400/409 it first
re-checks the settings, then accepts an already/initialized marker in the
error body; for 404/401/403 it runs the fallback probes; anything else is
fatal. -/
def handleHttpError (net : NetEnv) (restBase : String) (code : Nat)
    (detail : String) : Nat × List Attempt :=
  if code = 400 || code = 409 then
    ((if ownerRecheckOk net then 0
      else if alreadyMarker detail then 0
      else 1), [])
  else if code = 404 || code = 401 || code = 403 then
    fallbackLoop net (fallbackPaths restBase)
  else (1, [])

/-- Source `main`, lines 213-227: the third (legacy `user-management/setup`)
primary attempt; `pre` is the log of the attempts already made.  A raised
`HTTPError` goes to the shared outer handler; a 400/409 in-band body with
the already/initialized marker is success; any remaining outcome hits the
final `return 1` of the try block. -/
def setupThird (net : NetEnv) (restBase : String) (pre : List Attempt) : Nat × List Attempt :=
  let p3 := restBase ++ "/user-management/setup"
  match net.post p3 with
  | .netError => (1, pre ++ [(p3, .netError)])
  | .httpError c d =>
      ((handleHttpError net restBase c d).1,
       pre ++ (p3, .httpError c d) :: (handleHttpError net restBase c d).2)
  | .ok st b =>
      if st = 200 || st = 201 then (0, pre ++ [(p3, .ok st b)])
      else if (st = 400 || st = 409) && alreadyMarker (msgOf b) then (0, pre ++ [(p3, .ok st b)])
      else (1, pre ++ [(p3, .ok st b)])

/-- Source `main`, lines 202-212: the second (`/setup`) primary attempt,
falling through to the third on a non-success return. -/
def setupSecond (net : NetEnv) (restBase : String) (pre : List Attempt) : Nat × List Attempt :=
  let p2 := restBase ++ "/setup"
  match net.post p2 with
  | .netError => (1, pre ++ [(p2, .netError)])
  | .httpError c d =>
      ((handleHttpError net restBase c d).1,
       pre ++ (p2, .httpError c d) :: (handleHttpError net restBase c d).2)
  | .ok st b =>
      if st = 200 || st = 201 then (0, pre ++ [(p2, .ok st b)])
      else if (st = 400 || st = 409) && alreadyMarker (msgOf b) then (0, pre ++ [(p2, .ok st b)])
      else setupThird net restBase (pre ++ [(p2, .ok st b)])

/-- Source `main`, lines 180-339: the SETTING_UP_OWNER phase.  POST the owner
payload to `rest_prefix + "/owner/setup"`, then the `/setup` and
`/user-management/setup` legacy variants; an in-band 400/409 body whose
message carries the already/initialized marker is success; a raised
`HTTPError` from any of the three goes to `handleHttpError`; any other
exception is fatal.  Returns the exit code and the log of POST attempts. -/
def setupPhase (net : NetEnv) (restBase : String) : Nat × List Attempt :=
  let p1 := restBase ++ "/owner/setup"
  match net.post p1 with
  | .netError => (1, [(p1, .netError)])
  | .httpError c d =>
      ((handleHttpError net restBase c d).1,
       (p1, .httpError c d) :: (handleHttpError net restBase c d).2)
  | .ok st b =>
      if st = 200 || st = 201 then (0, [(p1, .ok st b)])
      else if (st = 400 || st = 409) && alreadyMarker (msgOf b) then (0, [(p1, .ok st b)])
      else setupSecond net restBase [(p1, .ok st b)]

/-- Source `main` from the moment a settings payload is obtained (line 157
onwards): unwrap the payload, short-circuit to success when the owner is
already configured (no POST is issued), otherwise run the setup phase.
Returns the process exit code and the log of owner-setup POST attempts. -/
def bootstrapAfterSettings (net : NetEnv) (settings0 : Json) : Nat × List Attempt :=
  let settings := unwrapData settings0
  if ownerFlags settings then (0, [])
  else setupPhase net (restBaseOf settings)

/-! ## `odoo/.../post-init/install_modules.py`: the module installer -/

/-- Python file iteration: split the file content into lines, each keeping
its trailing newline character (the last line may lack one). -/
def splitLinesKeepEnds (s : String) : List String :=
  let step := fun (c : Char) (acc : List Char × List String) =>
    if c = '\n' then (([] : List Char), (String.mk (c :: acc.1)) :: acc.2)
    else (c :: acc.1, acc.2)
  let r := s.data.foldr step ([], [])
  if r.1.isEmpty then r.2 else String.mk r.1 :: r.2

/-- Source `line.split("#", 1)[0]`: the part of a line before the first `#`. -/
def beforeHash (line : String) : String :=
  ⟨line.data.takeWhile (· ≠ '#')⟩

/-- Python `s.replace(old, new)` for single characters. -/
def pyReplaceChar (old new : Char) (s : String) : String :=
  ⟨s.data.map (fun c => if c = old then new else c)⟩

/-- Worker for `pySplitWs`: `cur` holds the characters of the chunk in
progress, in reverse. -/
def pySplitWsAux (cur : List Char) : List Char → List String
  | [] => if cur.isEmpty then [] else [⟨cur.reverse⟩]
  | c :: cs =>
      if pyIsSpace c then
        if cur.isEmpty then pySplitWsAux [] cs
        else ⟨cur.reverse⟩ :: pySplitWsAux [] cs
      else pySplitWsAux (c :: cur) cs

/-- Python `s.split()` with no argument: split on whitespace runs,
dropping empty chunks. -/
def pySplitWs (s : String) : List String :=
  pySplitWsAux [] s.data

/-- Python `ch.isalnum()` (ASCII fragment). -/
def pyIsAlnum (c : Char) : Bool :=
  c.isAlphanum

/-- Source `read_modules_list` from `install_modules.py` applied to the file
content (the `os.path.isfile` guard models an existing file):
strip `#` comments per line, join, normalize `;` and `,` to spaces,
split on whitespace, keep only tokens of alphanumerics/underscore/dash,
and deduplicate preserving order. -/
def read_modules_list (content : String) : List String :=
  let raw := (splitLinesKeepEnds content).map beforeHash
  let joined := String.intercalate "\n" raw
  let tokens := (pySplitWs (pyReplaceChar ',' ' ' (pyReplaceChar ';' ',' joined))).filterMap
    (fun chunk =>
      let c := pyStrip chunk
      if c = "" then none
      else if c.data.all (fun ch => pyIsAlnum ch || ch = '_' || ch = '-') then some c
      else none)
  dedupKeepFirst tokens

/-- Source `main` of `install_modules.py`, lines 123-134: the modules kept for
installation.  `states name` is the install state of the named module
record found by the ORM (`none` when no record exists — such names are
reported and skipped); modules already `installed`, `to install` or
`to upgrade` are skipped. -/
def to_install (states : String → Option String) (modules : List String) : List String :=
  modules.filter (fun name =>
    match states name with
    | none => false
    | some st => ¬ (st = "installed" || st = "to install" || st = "to upgrade"))

/-- Source `main`, line 141: the module set passed to the CLI installer
invocation, `",".join(sorted(to_install))`. -/
def cliModules (states : String → Option String) (modules : List String) : List String :=
  (to_install states modules).mergeSort (fun a b => a ≤ b)

/-! ## `odoo/.../post-init/bootstrap.py`: access-group resolution -/

/-- A record returned by `env.ref(xmlid)`: its database id and model name.
`env.ref` either returns a record or raises; the oracle `ref` returns
`none` for the raising case. -/
structure RefRec where
  id : Nat
  model : String
deriving DecidableEq

/-- Source `resolve_groups`, lines 172-179: the shorthand table. -/
def by_token (tok : String) : Option (List String) :=
  if tok = "internal" then some ["base.group_user"]
  else if tok = "portal" then some ["base.group_portal"]
  else if tok = "public" then some ["base.group_public"]
  else if tok = "admin" then some ["base.group_system"]
  else if tok = "settings" then some ["base.group_system"]
  else if tok = "manager" then some ["base.group_system"]
  else none

/-- The body of `resolve_groups` before deduplication: walk the tokens,
expanding each into its xmlid list (`[token]` when it contains a dot,
the shorthand table entry otherwise, `[]` for unknown shorthands), and
resolve each xmlid through `env.ref`.  Returns the collected group ids
and the list of xmlids for which a "not found" warning was printed. -/
def resolve_groups_raw (ref : String → Option RefRec) :
    List String → List Nat × List String
  | [] => ([], [])
  | token :: rest =>
      let xmlids := if strHasChar token '.' then [token]
                    else (by_token (pyLower token)).getD []
      let here := xmlids.foldl (fun (acc : List Nat × List String) xid =>
        match ref xid with
        | some rec => if rec.model = "res.groups" then (acc.1 ++ [rec.id], acc.2) else acc
        | none => (acc.1, acc.2 ++ [xid])) ([], [])
      let there := resolve_groups_raw ref rest
      (here.1 ++ there.1, here.2 ++ there.2)

/-- Source `resolve_groups` from `bootstrap.py` (lines 168-197): resolve group
tokens and deduplicate the resulting ids preserving order.  The second
component is the warning log (xmlids reported as not found). -/
def resolve_groups (ref : String → Option RefRec) (tokens : List String) :
    List Nat × List String :=
  let raw := resolve_groups_raw ref tokens
  (dedupKeepFirst raw.1, raw.2)

/-! ## `helpdesk_custom/models/helpdesk_ticket.py`: the ticket extension

The ERP ORM is the external collaborator: records are modelled as plain
structures, recordsets as lists, and `search` as a filter over the
in-memory tables of an `OrmEnv`.  Field names follow the source. -/

/-- A `helpdesk.category` record (tree-shaped). -/
structure Category where
  id : Nat
  parent_id : Option Nat
  team_id : Option Nat
  user_id : Option Nat
deriving DecidableEq

/-- A `helpdesk.team` record (the fields read by the extension). -/
structure Team where
  id : Nat
  use_sla : Bool
  member_ids : List Nat
  assign_method : String
deriving DecidableEq

/-- A `helpdesk.stage` record (only its ordering sequence is read). -/
structure Stage where
  id : Nat
  sequence : Int
deriving DecidableEq

/-- A `helpdesk.sla` policy record (the fields matched against). -/
structure SlaPolicy where
  id : Nat
  team_id : Option Nat
  priority_all : Bool
  priority : String
  stage_id : Nat
  category_ids : List Nat
  tag_ids : List Nat
deriving DecidableEq

/-- A `helpdesk.sla.status` progress record. -/
structure SlaStatus where
  id : Nat
  ticket_id : Nat
  sla_id : Nat
  reached : Bool
deriving DecidableEq

/-- A `helpdesk.ticket` record (the fields read by the SLA logic).
`extraVals` carries the values of inherited trigger fields that the base
helpdesk module may add to `_sla_reset_trigger` and that this extension
never reads directly (modelled abstractly, keyed by a field number). -/
structure Ticket where
  id : Nat
  team_id : Option Nat
  user_id : Option Nat
  priority : String
  stage_id : Option Nat
  category_id : Option Nat
  tag_ids : List Nat
  sla_ids : List Nat
  sla_opt_out : Bool
  sla_recompute_bump : Int
  extraVals : List (Nat × Int)
deriving DecidableEq

/-- The in-memory ORM tables consulted by the extension. -/
structure OrmEnv where
  categories : List Category
  teams : List Team
  stages : List Stage
  slas : List SlaPolicy
  statuses : List SlaStatus

/-- Look up a team record by id. -/
def findTeam (env : OrmEnv) (tid : Nat) : Option Team :=
  env.teams.find? (fun t => t.id = tid)

/-- Source `ticket.team_id.member_ids`: member ids of the ticket's team (empty
for a missing reference, as for an empty recordset). -/
def teamMembers (env : OrmEnv) (tid : Nat) : List Nat :=
  ((findTeam env tid).map (·.member_ids)).getD []

/-- Source `ticket.team_id.use_sla` (falsy on an empty team recordset). -/
def useSla (env : OrmEnv) (t : Ticket) : Bool :=
  match t.team_id with
  | some tid => ((findTeam env tid).map (·.use_sla)).getD false
  | none => false

/-- Source `stage.sequence` through a many2one reference (0, the falsy default,
for an empty reference). -/
def stageSeqOf (env : OrmEnv) (o : Option Nat) : Int :=
  match o with
  | some sid => ((env.stages.find? (fun s => s.id = sid)).map (·.sequence)).getD 0
  | none => 0

/-- Parent of a category, by id. -/
def categoryParent (env : OrmEnv) (cid : Nat) : Option Nat :=
  (env.categories.find? (fun c => c.id = cid)).bind (·.parent_id)

/-- Fuel-bounded walk up the category tree. -/
def ancestorWalk (env : OrmEnv) : Nat → Nat → List Nat
  | 0, _ => []
  | fuel + 1, cid =>
      cid :: (match categoryParent env cid with
              | some p => ancestorWalk env fuel p
              | none => [])

/-- Source `search([("id", "parent_of", cat_id)]).ids`: the category itself and
its transitive parents (the ORM's `parent_of` operator; the category
tree is acyclic, which the fuel bound enforces in the model). -/
def ancestorIds (env : OrmEnv) (cid : Nat) : List Nat :=
  ancestorWalk env (env.categories.length + 1) cid

/-! ### The Odoo domain language fragment built by the extension -/

/-- A value occurring on the right-hand side of a domain condition. -/
inductive DomVal where
  | vBool (b : Bool)
  | vNat (n : Nat)
  | vInt (n : Int)
  | vStr (s : String)
  | vIds (xs : List Nat)
deriving DecidableEq

/-- One element of an Odoo domain list: either the `"|"` disjunction
marker or a `(field, operator, value)` condition triple. -/
inductive DomTok where
  | OR
  | cond (field op : String) (v : DomVal)
deriving DecidableEq

/-- Evaluate a domain token list under a leaf valuation, following
Odoo's polish-notation semantics: scanning right to left, a condition
pushes its truth value and `"|"` combines the two topmost expressions;
the remaining stack entries are conjoined. -/
def domStack (f : String → String → DomVal → Bool) (toks : List DomTok) : List Bool :=
  toks.foldr (fun tok st =>
    match tok with
    | .cond fld op v => f fld op v :: st
    | .OR => match st with
             | a :: b :: st2 => (a || b) :: st2
             | _ => st) []

/-- Truth of a whole domain token list (implicit conjunction). -/
def evalToks (f : String → String → DomVal → Bool) (toks : List DomTok) : Bool :=
  (domStack f toks).all id

/-- Valuation of the domain conditions built by the extension against a
`helpdesk.sla` record.  `=`/`in` against `False` test for an unset
many2one / empty many2many, `in` against an id list tests membership or
overlap, `stage_id.sequence` reads the related stage's sequence. -/
def slaLeaf (env : OrmEnv) (s : SlaPolicy) (field op : String) (v : DomVal) : Bool :=
  if field = "id" && op = "in" then
    match v with | .vIds xs => xs.contains s.id | _ => false
  else if field = "id" && op = "=" then
    match v with | .vNat n => s.id = n | _ => false
  else if field = "team_id" && op = "=" then
    match v with
    | .vBool false => s.team_id = none
    | .vNat x => s.team_id = some x
    | _ => false
  else if field = "priority_all" && op = "=" then
    match v with | .vBool b => s.priority_all = b | _ => false
  else if field = "priority" && op = "=" then
    match v with | .vStr p => s.priority = p | _ => false
  else if field = "stage_id.sequence" && op = ">=" then
    match v with | .vInt n => n ≤ stageSeqOf env (some s.stage_id) | _ => false
  else if field = "category_ids" && op = "=" then
    match v with | .vBool false => s.category_ids.isEmpty | _ => false
  else if field = "category_ids" && op = "in" then
    match v with | .vIds xs => s.category_ids.any (fun c => xs.contains c) | _ => false
  else if field = "tag_ids" && op = "=" then
    match v with | .vBool false => s.tag_ids.isEmpty | _ => false
  else if field = "tag_ids" && op = "in" then
    match v with | .vIds xs => s.tag_ids.any (fun c => xs.contains c) | _ => false
  else false

/-- The many2one id placed in a domain (`record.id` is `False` on an
empty recordset). -/
def m2oVal (o : Option Nat) : DomVal :=
  match o with
  | some x => .vNat x
  | none => .vBool false

/-! ### `_sla_find` and friends -/

/-- The fields appearing in `_sla_reset_trigger`.  `extraField k` stands
for a trigger inherited from the base helpdesk module that this
extension does not read (e.g. the ticket type). -/
inductive TicketField where
  | team_id
  | priority
  | stage_id
  | tag_ids
  | category_id
  | sla_recompute_bump
  | sla_opt_out
  | extraField (k : Nat)
deriving DecidableEq

/-- A trigger-field value as collected by `_generate_key`: the id for a
many2one field, the raw value otherwise. -/
inductive FieldVal where
  | vOptNat (v : Option Nat)
  | vStr (s : String)
  | vInt (n : Int)
  | vBool (b : Bool)
  | vIds (xs : List Nat)
deriving DecidableEq

/-- Read a trigger field off a ticket (`_generate_key` body). -/
def fieldVal (t : Ticket) : TicketField → FieldVal
  | .team_id => .vOptNat t.team_id
  | .priority => .vStr t.priority
  | .stage_id => .vOptNat t.stage_id
  | .tag_ids => .vIds t.tag_ids
  | .category_id => .vOptNat t.category_id
  | .sla_recompute_bump => .vInt t.sla_recompute_bump
  | .sla_opt_out => .vBool t.sla_opt_out
  | .extraField k => .vInt (((t.extraVals.find? (fun p => p.1 = k)).map (·.2)).getD 0)

/-- The external inputs `_sla_find` composes with: the base module's
trigger list (`super()._sla_reset_trigger()`), and the truth of the
`Domain.OR([ticket._sla_find_extra_domain(), self._sla_find_false_domain()])`
factor, both owned by the base helpdesk module (an external
collaborator) and therefore abstract parameters of the model. -/
structure SlaParams where
  baseTriggers : List TicketField
  extraPred : Ticket → SlaPolicy → Bool
  falsePred : SlaPolicy → Bool

/-- Source `_sla_reset_trigger` of the extension: the base list extended with
`category_id`, `sla_recompute_bump` and `sla_opt_out`, deduplicated
preserving order (`dict.fromkeys`). -/
def sla_reset_trigger (P : SlaParams) : List TicketField :=
  dedupKeepFirst (P.baseTriggers ++
    [.category_id, .sla_recompute_bump, .sla_opt_out])

/-- Source `_generate_key(ticket)`: the tuple of trigger-field values. -/
def generateKey (P : SlaParams) (t : Ticket) : List FieldVal :=
  (sla_reset_trigger P).map (fieldVal t)

/-- The `base_domain` built per key in `_sla_find` (lines 511-534):
an id restriction when the ticket carries an explicit SLA, otherwise
team / priority / stage-sequence conditions plus the category-ancestry
leg. -/
def mkBaseDomain (env : OrmEnv) (t : Ticket) : List DomTok :=
  if !t.sla_ids.isEmpty then [.cond "id" "in" (.vIds t.sla_ids)]
  else
    [.OR, .cond "team_id" "=" (.vBool false), .cond "team_id" "=" (m2oVal t.team_id),
     .OR, .cond "priority_all" "=" (.vBool true), .cond "priority" "=" (.vStr t.priority),
     .cond "stage_id.sequence" ">=" (.vInt (stageSeqOf env t.stage_id))] ++
    (match t.category_id with
     | some cid => [.OR, .cond "category_ids" "=" (.vBool false),
                    .cond "category_ids" "in" (.vIds (ancestorIds env cid))]
     | none => [.cond "category_ids" "=" (.vBool false)])

/-- The search domain stored in `sla_domain_map` for a key: the base
domain of the first ticket carrying the key, conjoined with the
`Domain.OR` of the base module's extra and false domains (kept abstract
as predicates; the extra domain is evaluated for that same ticket). -/
def slaSearchPred (P : SlaParams) (env : OrmEnv) (t0 : Ticket) (s : SlaPolicy) : Bool :=
  evalToks (slaLeaf env s) (mkBaseDomain env t0) && (P.extraPred t0 s || P.falsePred s)

/-- Append a ticket to its key's group, preserving insertion order of
keys (`tickets_map.setdefault(key, ...); tickets_map[key] |= ticket`). -/
def upsertGroup (key : List FieldVal) (t : Ticket) :
    List (List FieldVal × List Ticket) → List (List FieldVal × List Ticket)
  | [] => [(key, [t])]
  | (k, g) :: rest =>
      if k = key then (k, g ++ [t]) :: rest
      else (k, g) :: upsertGroup key t rest

/-- The grouping loop of `_sla_find` (lines 501-538): skip opted-out
tickets and tickets whose team does not use SLAs; group the rest by
trigger key; record, per key, the domain built from the first ticket
seen with that key. -/
def slaFindLoop (P : SlaParams) (env : OrmEnv) (tickets : List Ticket) :
    List (List FieldVal × List Ticket) × List (List FieldVal × Ticket) :=
  tickets.foldl (fun acc t =>
    if t.sla_opt_out then acc
    else if !useSla env t then acc
    else
      let key := generateKey P t
      let tmap := upsertGroup key t acc.1
      let dmap := if acc.2.any (fun p => p.1 = key) then acc.2 else acc.2 ++ [(key, t)]
      (tmap, dmap)) ([], [])

/-- Source `tickets.tag_ids` of a grouped recordset: the tags of all tickets in
the group. -/
def groupTags (group : List Ticket) : List Nat :=
  group.foldl (fun acc t => acc ++ t.tag_ids) []

/-- Source `_sla_find` (lines 484-546): the map from grouped tickets to the SLA
policies matching them — the domain search followed by the tag-overlap
filter `not s.tag_ids or (tickets.tag_ids & s.tag_ids)`. -/
def sla_find (P : SlaParams) (env : OrmEnv) (tickets : List Ticket) :
    List (List Ticket × List SlaPolicy) :=
  let maps := slaFindLoop P env tickets
  maps.1.map (fun kg =>
    match (maps.2.find? (fun p => p.1 = kg.1)).map (·.2) with
    | some t0 =>
        let slas := env.slas.filter (slaSearchPred P env t0)
        (kg.2, slas.filter (fun s =>
          s.tag_ids.isEmpty || (groupTags kg.2).any (fun x => s.tag_ids.contains x)))
    | none => (kg.2, []))

/-- Source `ticket.sla_status_ids`: the status records attached to a ticket. -/
def statusesOf (env : OrmEnv) (t : Ticket) : List SlaStatus :=
  env.statuses.filter (fun st => st.ticket_id = t.id)

/-- Source `_cleanup_obsolete_sla_statuses_after_change(vals)` (lines 561-587)
run on the recordset `self`: when the written keys intersect the trigger
set, recompute `_sla_find`, build the per-ticket allowed-SLA map, and
collect for deletion every status of a ticket whose policy is not in the
ticket's allowed set (all statuses when the allowed set is empty).
Returns the recordset passed to `unlink()`. -/
def cleanup_obsolete_sla_statuses (P : SlaParams) (env : OrmEnv)
    (self : List Ticket) (valsKeys : List TicketField) : List SlaStatus :=
  let triggers := sla_reset_trigger P
  if !valsKeys.any (fun k => triggers.contains k) then []
  else
    let slaMap := sla_find P env self
    let allowedByTicket : List (Nat × List Nat) :=
      slaMap.foldl (fun acc gs =>
        acc ++ gs.1.map (fun t => (t.id, gs.2.map (·.id)))) []
    self.foldl (fun acc t =>
      let allowed := (((allowedByTicket.find? (fun p => p.1 = t.id)).map (·.2)).getD [])
      if allowed.isEmpty then acc ++ statusesOf env t
      else acc ++ (statusesOf env t).filter (fun st => !allowed.contains st.sla_id)) []

/-- The per-policy acceptance test underlying a singleton `_sla_find`
call: the search domain of the ticket itself plus the tag filter. -/
def slaAccepted (P : SlaParams) (env : OrmEnv) (t : Ticket) (s : SlaPolicy) : Bool :=
  slaSearchPred P env t s &&
    (s.tag_ids.isEmpty || t.tag_ids.any (fun x => s.tag_ids.contains x))

/-- The matched-SLA id set of a single ticket: what `_sla_find` computes
for a one-ticket recordset (empty when the ticket is opted out or its
team does not use SLAs). -/
def matchedSlaIds (P : SlaParams) (env : OrmEnv) (t : Ticket) : List Nat :=
  if t.sla_opt_out || !useSla env t then []
  else (env.slas.filter (slaAccepted P env t)).map (·.id)

/-! ### `_onchange_sla_ids_domain` (lines 183-220) -/

/-- The `sla_ids` selection domain returned by the onchange: an
unsatisfiable domain when opted out; otherwise team, priority,
stage-sequence, category-ancestry and tag legs. -/
def onchange_sla_ids_domain (env : OrmEnv) (t : Ticket) : List DomTok :=
  if t.sla_opt_out then [.cond "id" "=" (.vNat 0)]
  else
    (match t.team_id with
     | some tid => [.OR, .cond "team_id" "=" (.vBool false), .cond "team_id" "=" (.vNat tid)]
     | none => [.cond "team_id" "=" (.vBool false)]) ++
    [.OR, .cond "priority_all" "=" (.vBool true), .cond "priority" "=" (.vStr t.priority)] ++
    (match t.stage_id with
     | some sid => [.cond "stage_id.sequence" ">=" (.vInt (stageSeqOf env (some sid)))]
     | none => []) ++
    (match t.category_id with
     | some cid => [.OR, .cond "category_ids" "=" (.vBool false),
                    .cond "category_ids" "in" (.vIds (ancestorIds env cid))]
     | none => [.cond "category_ids" "=" (.vBool false)]) ++
    (if !t.tag_ids.isEmpty then
       [.OR, .cond "tag_ids" "=" (.vBool false), .cond "tag_ids" "in" (.vIds t.tag_ids)]
     else [.cond "tag_ids" "=" (.vBool false)])

/-! ### `create` / `write`: collapsing to a single SLA -/

/-- A many2many command as accepted for `sla_ids` in `create` vals
(`other` stands for the command codes 0/1/2 that the normalization loop
ignores, and for malformed entries it skips). -/
inductive M2MCmd where
  | set (ids : List Nat)
  | link (id : Nat)
  | unlink (id : Nat)
  | clear
  | other
deriving DecidableEq

/-- One step of the command-normalization loop in `create` (lines
380-394), maintaining the Python set `ids` (represented as a list with
set membership; `link` models `ids.add`, `unlink` models `ids.discard`). -/
def applyCmd (ids : List Nat) : M2MCmd → List Nat
  | .set xs => xs
  | .link x => if ids.contains x then ids else ids ++ [x]
  | .unlink x => ids.filter (· ≠ x)
  | .clear => []
  | .other => ids

/-- Source `next(iter(ids))` on a CPython set of ids.  CPython iterates a set
in hash-table slot order, not insertion order; for distinct small
non-negative ints (below the initial table size 8) the slot index equals
the value, so the first iterated element is the minimum.  The model
commits to that minimum; the essential property is that the order the
caller listed the ids in is not preserved. -/
def pySetFirstIter : List Nat → Option Nat
  | [] => none
  | x :: xs => some (xs.foldl Nat.min x)

/-- The `sla_ids` normalization in `create` (lines 375-398): when the
vals carry a truthy command list, fold the commands into the final id
set and, when non-empty, replace the commands by a single `set` of
`next(iter(ids))`; otherwise leave the vals untouched. -/
def createNormalizeSlaCmds (cmds : List M2MCmd) : List M2MCmd :=
  if cmds.isEmpty then cmds
  else
    let ids := cmds.foldl applyCmd []
    match pySetFirstIter ids with
    | some x => [.set [x]]
    | none => cmds

/-- The post-`write` compression (lines 438-445): if more than one SLA
is attached, keep only the first element of the recordset (recordset
order, i.e. the ORM's default ordering — not the caller's). -/
def writeCompressSlas (slas : List Nat) : List Nat :=
  if 1 < slas.length then slas.take 1 else slas

/-! ### `_check_assignee_is_team_member` (lines 457-462) -/

/-- The `@api.constrains("team_id", "user_id")` check: raise a
`ValidationError` for the first ticket whose team and assignee are both
set while the assignee is not a team member. -/
def check_assignee_is_team_member (env : OrmEnv) :
    List Ticket → Except String Unit
  | [] => .ok ()
  | t :: rest =>
      match t.team_id, t.user_id with
      | some tid, some uid =>
          if !(teamMembers env tid).contains uid then
            .error "Assign To must be a member of the selected Helpdesk Team."
          else check_assignee_is_team_member env rest
      | _, _ => check_assignee_is_team_member env rest

/-- The ORM contract for `@api.constrains`: after any create or write the
constraint runs on the affected records and a raise aborts the mutation,
so the mutated records are observable only when the check passes. -/
def constrainedMutation (env : OrmEnv) (tickets : List Ticket) :
    Except String (List Ticket) := do
  check_assignee_is_team_member env tickets
  pure tickets

/-! ## Concrete scenarios used by witnesses and counterexamples -/

/-- A network oracle on which every call fails. -/
def netDown : NetEnv := ⟨fun _ => .netError, none⟩

/-- A network oracle answering the primary owner-setup POST with a 409
conflict whose body carries the vendor "already" message. -/
def net409 : NetEnv :=
  ⟨fun p => if p = "/rest/owner/setup"
            then .httpError 409 "Instance owner already setup" else .netError,
   none⟩

/-- The top-level (non-nested) owner flag payload named by the spec. -/
def settingsTopInit : Json := .obj [("isInstanceOwnerInitialized", .bool true)]

/-- Owner flag payloads nested under `userManagement`. -/
def settingsUmSetUp : Json :=
  .obj [("userManagement", .obj [("isInstanceOwnerSetUp", .bool true)])]

def settingsUmInit : Json :=
  .obj [("userManagement", .obj [("isInstanceOwnerInitialized", .bool true)])]

def settingsUmShow : Json :=
  .obj [("userManagement", .obj [("showSetupOnFirstLoad", .bool false)])]

/-- Module install states for the module-installer witness. -/
def statesW : String → Option String := fun n =>
  if n = "crm" then some "installed"
  else if n = "sale" then some "uninstalled"
  else if n = "stock" then some "uninstalled"
  else none

/-- A `env.ref` oracle resolving only the internal-user group. -/
def refW : String → Option RefRec := fun xid =>
  if xid = "base.group_user" then some ⟨11, "res.groups"⟩ else none

/-- Helpdesk scenario: one team using SLAs, two stages, two flat
categories (2, 3) and a chain 20 → 21 → 22 plus the unrelated 23. -/
def envW : OrmEnv :=
  { categories := [⟨2, none, none, none⟩, ⟨3, none, none, none⟩,
                   ⟨20, some 21, none, none⟩, ⟨21, some 22, none, none⟩,
                   ⟨22, none, none, none⟩, ⟨23, none, none, none⟩]
    teams := [⟨1, true, [7], "manual"⟩]
    stages := [⟨5, 10⟩, ⟨6, 20⟩]
    slas := [⟨10, none, true, "1", 6, [3], []⟩, ⟨20, none, true, "1", 6, [], []⟩]
    statuses := [⟨100, 1, 10, true⟩, ⟨101, 2, 20, false⟩] }

/-- Ticket 1: category 2, no tags, no explicit SLA; its only status
(record 100) points at policy 10, which is scoped to category 3 and has
already been reached. -/
def ticketW : Ticket := ⟨1, some 1, none, "1", some 5, some 2, [], [], false, 0, []⟩

/-- Ticket 2: the same shape but opted out of SLAs; its status record is
101. -/
def ticketOpt : Ticket := ⟨2, some 1, none, "1", some 5, some 2, [], [], true, 0, []⟩

/-- Ticket 4: category 20 with ancestor chain 20 → 21 → 22. -/
def ticketC4 : Ticket := ⟨4, some 1, none, "1", some 5, some 20, [], [], false, 0, []⟩

/-- Policies for the category-ancestry scenario: scoped to the ancestor
21, category-agnostic, and scoped to the unrelated 23. -/
def polB : SlaPolicy := ⟨30, none, true, "1", 6, [21], []⟩

def polAg : SlaPolicy := ⟨31, none, true, "1", 6, [], []⟩

def polD : SlaPolicy := ⟨32, none, true, "1", 6, [23], []⟩

/-- Base-module parameters for the witnesses: the inherited trigger list
of the stock helpdesk module, a tautological partner (extra) domain and
an unsatisfiable false-domain. -/
def paramsW : SlaParams :=
  ⟨[.team_id, .priority, .stage_id, .tag_ids], fun _ _ => true, fun _ => false⟩

/-!
## Theorems: one per claim

One theorem per claim (with witnesses for hypothesis-bearing theorems
and counterexamples for corrected claims), preceded by the supporting
lemmas.
-/

/-! ### C5 — the configuration-parameter setter -/

theorem get_param_set_param (st : IcpState) (k v : String) :
    get_param (set_param st k v) k = some v := by
  simp [get_param, set_param]

/-- C5 (counterexample): the claim states that for *every* key and value,
repeated `_ensure_param` calls with the same value report "changed" only
on the first call.  For the value `" x "` (carrying whitespace) the
setter stores the value verbatim but compares against the *stripped*
stored value, so the second call reports "changed" again. -/
theorem C5_counterexample :
    (ensure_param (ensure_param ⟨[]⟩ "k" " x ").2 "k" " x ").1 = true := by
  decide

/-- C5 (corrected): for values that equal their own whitespace-strip, the
setter reports "changed" on the first call exactly when the stripped
stored value differs, leaves the store unchanged by a repeated call, and
reports "unchanged" on the second (hence every subsequent) call with the
same value. -/
theorem C5_ensure_param_reports_changed_once (st : IcpState) (k v : String)
    (hv : pyStrip v = v) :
    (ensure_param (ensure_param st k v).2 k v).1 = false ∧
    (ensure_param (ensure_param st k v).2 k v).2 = (ensure_param st k v).2 ∧
    ((ensure_param st k v).1 = true ↔ pyStrip ((get_param st k).getD "") ≠ v) := by
  by_cases h : pyStrip ((get_param st k).getD "") = v
  · simp [ensure_param, h]
  · have h2 : (ensure_param st k v).2 = set_param st k v := by
      simp [ensure_param, h]
    have h3 : pyStrip ((get_param (set_param st k v) k).getD "") = v := by
      rw [get_param_set_param]; exact hv
    refine ⟨?_, ?_, ?_⟩
    · simp [ensure_param, h, h3]
    · simp [ensure_param, h, h3]
    · simp [ensure_param, h]

/-- C5 (witness): the corrected theorem evaluated at the empty store with
the strip-invariant value `"x"`: the first call reports changed, the
second does not. -/
theorem C5_witness :
    pyStrip "x" = "x" ∧
    (ensure_param (⟨[]⟩ : IcpState) "k" "x").1 = true ∧
    (ensure_param (ensure_param (⟨[]⟩ : IcpState) "k" "x").2 "k" "x").1 = false := by
  have h := C5_ensure_param_reports_changed_once ⟨[]⟩ "k" "x" (by decide)
  exact ⟨by decide, h.2.2.mpr (by decide), h.1⟩

/-! ### C3 — owner-already-configured payload shapes -/

/-- C3 (counterexample): the claim lists the payload
`{"isInstanceOwnerInitialized": true}` (flag at top level) as an
owner-already-configured shape, but the bootstrapper reads the flags only
from the `userManagement` sub-object: on that payload the owner check is
negative and an owner-setup POST is issued (here it fails, exit 1). -/
theorem C3_counterexample :
    isOwnerSetup settingsTopInit = false ∧
    (bootstrapAfterSettings netDown settingsTopInit).1 = 1 ∧
    (bootstrapAfterSettings netDown settingsTopInit).2 =
      [("/rest/owner/setup", HttpOutcome.netError)] :=
  ⟨rfl, rfl, rfl⟩

/-- C3 (corrected): with the "is set up", "is initialized" and negated
"show setup screen" flags nested under `userManagement`, the bootstrapper
concludes the owner is already configured and exits with code 0 without
issuing any owner-setup POST, whatever the network behaves like. -/
theorem C3_owner_already_configured (net : NetEnv) :
    bootstrapAfterSettings net settingsUmSetUp = (0, []) ∧
    bootstrapAfterSettings net settingsUmInit = (0, []) ∧
    bootstrapAfterSettings net settingsUmShow = (0, []) :=
  ⟨rfl, rfl, rfl⟩

/-! ### C6 — 409 responses carrying "already" -/

theorem listIsPre_map (f : Char → Char) :
    ∀ n h : List Char, listIsPre n h = true → listIsPre (n.map f) (h.map f) = true := by
  intro n
  induction n with
  | nil => intro h _; simp [listIsPre]
  | cons a ns ih =>
      intro h hp
      cases h with
      | nil => simp [listIsPre] at hp
      | cons b hs =>
          simp only [listIsPre, Bool.and_eq_true, beq_iff_eq] at hp
          simp only [List.map_cons, listIsPre, Bool.and_eq_true, beq_iff_eq]
          exact ⟨by rw [hp.1], ih hs hp.2⟩

theorem listIsSub_map (f : Char → Char) :
    ∀ (n h : List Char), listIsSub n h = true → listIsSub (n.map f) (h.map f) = true := by
  intro n h
  induction h with
  | nil => cases n <;> simp [listIsSub]
  | cons b hs ih =>
      intro hp
      simp only [listIsSub, Bool.or_eq_true] at hp
      rcases hp with hpre | hsub
      · simp only [List.map_cons, listIsSub, Bool.or_eq_true]
        exact Or.inl (by simpa using listIsPre_map f n (b :: hs) hpre)
      · simp only [List.map_cons, listIsSub, Bool.or_eq_true]
        exact Or.inr (ih hsub)

/-- A body containing the literal lowercase `"already"` still contains it
after `str.lower()`, so the already/initialized marker test fires. -/
theorem alreadyMarker_of_contains (d : String)
    (h : strContains d "already" = true) : alreadyMarker d = true := by
  have hmap := listIsSub_map Char.toLower _ _ h
  have heq : ("already".data).map Char.toLower = "already".data := by decide
  rw [heq] at hmap
  unfold alreadyMarker
  have : strContains (pyLower d) "already" = true := hmap
  simp [this]

/-- If the step records the 409-already attempt itself, or the
continuation both contains it and succeeds, the step succeeds. -/
theorem fallbackStep_409 (q p d : String) (r : HttpOutcome)
    (prev : Nat × List Attempt) (hd : alreadyMarker d = true)
    (hprev : (p, HttpOutcome.httpError 409 d) ∈ prev.2 → prev.1 = 0)
    (hmem : (p, HttpOutcome.httpError 409 d) ∈ (fallbackStep q r prev).2) :
    (fallbackStep q r prev).1 = 0 := by
  cases r with
  | ok st b =>
      by_cases hs : (st = 200 || st = 201) = true
      · simp [fallbackStep, hs]
      · simp only [fallbackStep, hs, if_false, Bool.false_eq_true] at hmem ⊢
        rcases List.mem_cons.mp hmem with heq | hmem2
        · exact absurd (congrArg Prod.snd heq) (by simp)
        · exact hprev hmem2
  | httpError c2 d2 =>
      by_cases h1 : ((c2 = 400 || c2 = 409) && alreadyMarker d2) = true
      · simp [fallbackStep, h1]
      · by_cases h2 : (c2 = 401 || c2 = 403) = true
        · simp only [fallbackStep, h1, h2, if_false, if_true, Bool.false_eq_true] at hmem ⊢
          rcases List.mem_cons.mp hmem with heq | hmem2
          · have : (409 : Nat) = c2 := by
              have := congrArg Prod.snd heq
              simp only [HttpOutcome.httpError.injEq] at this
              exact this.1
            subst this
            simp at h2
          · exact hprev hmem2
        · by_cases h3 : c2 = 404
          · subst h3
            simp only [fallbackStep, h1, h2, if_false, Bool.false_eq_true, ne_eq,
              not_true_eq_false] at hmem ⊢
            rcases List.mem_cons.mp hmem with heq | hmem2
            · have : (409 : Nat) = 404 := by
                have := congrArg Prod.snd heq
                simp only [HttpOutcome.httpError.injEq] at this
                exact this.1
              simp at this
            · exact hprev hmem2
          · exfalso
            simp only [fallbackStep, h1, h2, if_false, Bool.false_eq_true, ne_eq, h3,
              not_false_eq_true, if_true] at hmem
            rcases List.mem_cons.mp hmem with heq | hmem2
            · have hinj := congrArg Prod.snd heq
              simp only [HttpOutcome.httpError.injEq] at hinj
              rcases hinj with ⟨hc, hdd⟩
              rw [← hc, ← hdd, hd] at h1
              simp at h1
            · simp at hmem2
  | netError =>
      simp only [fallbackStep] at hmem
      rcases List.mem_cons.mp hmem with heq | hmem2
      · exact absurd (congrArg Prod.snd heq) (by simp)
      · simp at hmem2

/-- Any 409-already attempt recorded by the fallback loop makes the whole
loop report success. -/
theorem fallbackLoop_409 (net : NetEnv) (p d : String)
    (hd : alreadyMarker d = true) :
    ∀ paths : List String,
      (p, HttpOutcome.httpError 409 d) ∈ (fallbackLoop net paths).2 →
      (fallbackLoop net paths).1 = 0 := by
  intro paths
  induction paths with
  | nil => intro hmem; simp [fallbackLoop] at hmem
  | cons q rest ih =>
      intro hmem
      exact fallbackStep_409 q p d (net.post q) (fallbackLoop net rest) hd ih hmem

/-- A 409 with the already/initialized marker reaching the outer
`HTTPError` handler reports success whatever the re-check yields. -/
theorem handleHttpError_409_already (net : NetEnv) (rb d : String)
    (hd : alreadyMarker d = true) :
    (handleHttpError net rb 409 d).1 = 0 := by
  cases h : ownerRecheckOk net <;> simp [handleHttpError, h, hd]

/-- Any 409-already attempt recorded by the outer handler (i.e. by the
fallback probes) makes the handler report success. -/
theorem handleHttpError_mem_409 (net : NetEnv) (rb detail p d : String) (code : Nat)
    (hd : alreadyMarker d = true)
    (hmem : (p, HttpOutcome.httpError 409 d) ∈ (handleHttpError net rb code detail).2) :
    (handleHttpError net rb code detail).1 = 0 := by
  unfold handleHttpError at hmem ⊢
  by_cases h1 : (code = 400 || code = 409) = true
  · simp [h1] at hmem
  · by_cases h2 : (code = 404 || code = 401 || code = 403) = true
    · simp only [h1, h2, if_false, if_true, Bool.false_eq_true] at hmem ⊢
      exact fallbackLoop_409 net p d hd _ hmem
    · simp [h1, h2] at hmem

/-- A log whose entries are all successful returns contains no raised
`HTTPError` entries. -/
def NoErrEntries (pre : List Attempt) : Prop :=
  ∀ e ∈ pre, ∀ c dd, e.2 ≠ HttpOutcome.httpError c dd

theorem noErrEntries_append_ok (pre : List Attempt) (q : String) (st : Nat) (b : Json)
    (hpre : NoErrEntries pre) :
    NoErrEntries (pre ++ [(q, HttpOutcome.ok st b)]) := by
  intro e he c dd
  rcases List.mem_append.mp he with h | h
  · exact hpre e h c dd
  · rcases List.mem_singleton.mp h with rfl
    simp

theorem setupThird_409 (net : NetEnv) (rb : String) (pre : List Attempt)
    (p d : String) (hd : alreadyMarker d = true) (hpre : NoErrEntries pre)
    (hmem : (p, HttpOutcome.httpError 409 d) ∈ (setupThird net rb pre).2) :
    (setupThird net rb pre).1 = 0 := by
  unfold setupThird at hmem ⊢
  cases hpost : net.post (rb ++ "/user-management/setup") with
  | ok st b =>
      simp only [hpost] at hmem ⊢
      by_cases hs : (st = 200 || st = 201) = true
      · simp [hs]
      · by_cases ha : ((st = 400 || st = 409) && alreadyMarker (msgOf b)) = true
        · simp [hs, ha]
        · exfalso
          simp only [hs, ha, if_false, Bool.false_eq_true] at hmem
          rcases List.mem_append.mp hmem with h | h
          · exact hpre _ h 409 d rfl
          · rcases List.mem_singleton.mp h with heq
            exact absurd (congrArg Prod.snd heq) (by simp)
  | httpError c dd =>
      simp only [hpost] at hmem ⊢
      rcases List.mem_append.mp hmem with h | h
      · exact absurd rfl (hpre _ h 409 d)
      · rcases List.mem_cons.mp h with heq | h2
        · have hinj := congrArg Prod.snd heq
          simp only [HttpOutcome.httpError.injEq] at hinj
          rw [← hinj.1, ← hinj.2]
          exact handleHttpError_409_already net rb d hd
        · exact handleHttpError_mem_409 net rb dd p d c hd h2
  | netError =>
      exfalso
      simp only [hpost] at hmem
      rcases List.mem_append.mp hmem with h | h
      · exact hpre _ h 409 d rfl
      · rcases List.mem_singleton.mp h with heq
        exact absurd (congrArg Prod.snd heq) (by simp)

theorem setupSecond_409 (net : NetEnv) (rb : String) (pre : List Attempt)
    (p d : String) (hd : alreadyMarker d = true) (hpre : NoErrEntries pre)
    (hmem : (p, HttpOutcome.httpError 409 d) ∈ (setupSecond net rb pre).2) :
    (setupSecond net rb pre).1 = 0 := by
  unfold setupSecond at hmem ⊢
  cases hpost : net.post (rb ++ "/setup") with
  | ok st b =>
      simp only [hpost] at hmem ⊢
      by_cases hs : (st = 200 || st = 201) = true
      · simp [hs]
      · by_cases ha : ((st = 400 || st = 409) && alreadyMarker (msgOf b)) = true
        · simp [hs, ha]
        · simp only [hs, ha, if_false, Bool.false_eq_true] at hmem ⊢
          exact setupThird_409 net rb _ p d hd
            (noErrEntries_append_ok pre _ st b hpre) hmem
  | httpError c dd =>
      simp only [hpost] at hmem ⊢
      rcases List.mem_append.mp hmem with h | h
      · exact absurd rfl (hpre _ h 409 d)
      · rcases List.mem_cons.mp h with heq | h2
        · have hinj := congrArg Prod.snd heq
          simp only [HttpOutcome.httpError.injEq] at hinj
          rw [← hinj.1, ← hinj.2]
          exact handleHttpError_409_already net rb d hd
        · exact handleHttpError_mem_409 net rb dd p d c hd h2
  | netError =>
      exfalso
      simp only [hpost] at hmem
      rcases List.mem_append.mp hmem with h | h
      · exact hpre _ h 409 d rfl
      · rcases List.mem_singleton.mp h with heq
        exact absurd (congrArg Prod.snd heq) (by simp)

theorem setupPhase_409 (net : NetEnv) (rb : String) (p d : String)
    (hd : alreadyMarker d = true)
    (hmem : (p, HttpOutcome.httpError 409 d) ∈ (setupPhase net rb).2) :
    (setupPhase net rb).1 = 0 := by
  unfold setupPhase at hmem ⊢
  cases hpost : net.post (rb ++ "/owner/setup") with
  | ok st b =>
      simp only [hpost] at hmem ⊢
      by_cases hs : (st = 200 || st = 201) = true
      · simp [hs]
      · by_cases ha : ((st = 400 || st = 409) && alreadyMarker (msgOf b)) = true
        · simp [hs, ha]
        · simp only [hs, ha, if_false, Bool.false_eq_true] at hmem ⊢
          refine setupSecond_409 net rb _ p d hd ?_ hmem
          intro e he c dd
          rcases List.mem_singleton.mp he with rfl
          simp
  | httpError c dd =>
      simp only [hpost] at hmem ⊢
      rcases List.mem_cons.mp hmem with heq | h2
      · have hinj := congrArg Prod.snd heq
        simp only [HttpOutcome.httpError.injEq] at hinj
        rw [← hinj.1, ← hinj.2]
        exact handleHttpError_409_already net rb d hd
      · exact handleHttpError_mem_409 net rb dd p d c hd h2
  | netError =>
      exfalso
      simp only [hpost] at hmem
      rcases List.mem_singleton.mp hmem with heq
      exact absurd (congrArg Prod.snd heq) (by simp)

/-- C6 (confirmed): whatever the settings payload and network behaviour,
if any owner-setup POST attempt — primary, legacy or fallback probe —
came back as an HTTP 409 whose body contains the substring `"already"`,
the bootstrapper reports success (exit code 0). -/
theorem C6_conflict_already_is_success (net : NetEnv) (settings : Json)
    (p d : String)
    (hbody : strContains d "already" = true)
    (hmem : (p, HttpOutcome.httpError 409 d) ∈ (bootstrapAfterSettings net settings).2) :
    (bootstrapAfterSettings net settings).1 = 0 := by
  have hd := alreadyMarker_of_contains d hbody
  unfold bootstrapAfterSettings at hmem ⊢
  by_cases hof : ownerFlags (unwrapData settings) = true
  · simp [hof] at hmem
  · simp only [hof, if_false, Bool.false_eq_true] at hmem ⊢
    exact setupPhase_409 net _ p d hd hmem

/-- C6 (witness): a network whose primary owner-setup POST raises
HTTP 409 with an "already" body makes the run exit 0. -/
theorem C6_witness :
    strContains "Instance owner already setup" "already" = true ∧
    (bootstrapAfterSettings net409 (Json.obj [])).1 = 0 := by
  have hlog : (bootstrapAfterSettings net409 (Json.obj [])).2 =
      [("/rest/owner/setup", HttpOutcome.httpError 409 "Instance owner already setup")] := rfl
  refine ⟨by decide, C6_conflict_already_is_success net409 (Json.obj [])
    "/rest/owner/setup" "Instance owner already setup" (by decide) ?_⟩
  rw [hlog]
  exact List.mem_singleton_self _

/-! ### C7 — the module installer -/

/-- C7 (confirmed): the module-list file `crm, # comment\nsale;stock`
parses to `["crm", "sale", "stock"]` in that order, and any parsed module
whose install state is `installed`, `to install` or `to upgrade` is
excluded from the set handed to the CLI installer invocation. -/
theorem C7_modules_parse_and_exclusion :
    read_modules_list "crm, # comment\nsale;stock" = ["crm", "sale", "stock"] ∧
    ∀ (states : String → Option String) (mods : List String) (name st : String),
      states name = some st →
      (st = "installed" ∨ st = "to install" ∨ st = "to upgrade") →
      name ∉ cliModules states mods := by
  constructor
  · rfl
  · intro states mods name st hstate hbad hmem
    have hmem2 : name ∈ to_install states mods := List.mem_mergeSort.mp hmem
    unfold to_install at hmem2
    have hpred := (List.mem_filter.mp hmem2).2
    rw [hstate] at hpred
    rcases hbad with rfl | rfl | rfl <;> simp at hpred

/-- C7 (witness): with `crm` installed and `sale`/`stock` uninstalled,
the parsed list is as stated and `crm` is excluded from the CLI set. -/
theorem C7_witness :
    statesW "crm" = some "installed" ∧
    "crm" ∉ cliModules statesW (read_modules_list "crm, # comment\nsale;stock") :=
  ⟨rfl, C7_modules_parse_and_exclusion.2 statesW _ "crm" "installed" rfl (Or.inl rfl)⟩

/-! ### C8 — access-group token resolution -/

/-- C8 (counterexample): the claim states that *every* unknown token is
logged and skipped, but an unknown shorthand (a token without a dot that
is not in the shorthand table) is skipped silently: resolving
`["bogus", "internal"]` continues past `bogus` yet produces an empty
warning log. -/
theorem C8_counterexample :
    resolve_groups refW ["bogus", "internal"] = ([11], []) := by
  decide

/-- C8 (corrected): shorthand names resolve through their fixed group
identifiers and dotted tokens are used as identifiers directly; an
unresolvable dotted identifier is logged and skipped without aborting the
remaining tokens, while an unknown shorthand is skipped *silently* (no
log entry), also without aborting. -/
theorem C8_resolve_groups_behaviour :
    (∀ (ref : String → Option RefRec) (tok xid : String) (g : Nat),
      strHasChar tok '.' = false →
      by_token (pyLower tok) = some [xid] →
      ref xid = some ⟨g, "res.groups"⟩ →
      resolve_groups ref [tok] = ([g], [])) ∧
    (∀ (ref : String → Option RefRec) (tok : String) (g : Nat),
      strHasChar tok '.' = true →
      ref tok = some ⟨g, "res.groups"⟩ →
      resolve_groups ref [tok] = ([g], [])) ∧
    (∀ (ref : String → Option RefRec) (tok : String) (rest : List String),
      strHasChar tok '.' = true →
      ref tok = none →
      resolve_groups_raw ref (tok :: rest) =
        ((resolve_groups_raw ref rest).1, tok :: (resolve_groups_raw ref rest).2)) ∧
    (∀ (ref : String → Option RefRec) (tok : String) (rest : List String),
      strHasChar tok '.' = false →
      by_token (pyLower tok) = none →
      resolve_groups_raw ref (tok :: rest) = resolve_groups_raw ref rest) := by
  refine ⟨?_, ?_, ?_, ?_⟩
  · intro ref tok xid g hdot hshort href
    simp [resolve_groups, resolve_groups_raw, hdot, hshort, href,
      dedupKeepFirst, dedupKeepFirstAux]
  · intro ref tok g hdot href
    simp [resolve_groups, resolve_groups_raw, hdot, href,
      dedupKeepFirst, dedupKeepFirstAux]
  · intro ref tok rest hdot href
    simp [resolve_groups_raw, hdot, href]
  · intro ref tok rest hdot hshort
    simp [resolve_groups_raw, hdot, hshort]

/-- C8 (witness): the corrected theorem evaluated on a resolver that
knows only `base.group_user`: the shorthand `internal` resolves to that
group and nothing is logged. -/
theorem C8_witness :
    resolve_groups refW ["internal"] = ([11], []) :=
  C8_resolve_groups_behaviour.1 refW "internal" "base.group_user" 11
    (by decide) (by decide) (by decide)

/-! ### C9 — assignee-in-team invariant -/

theorem check_assignee_ok_iff (env : OrmEnv) : ∀ ts : List Ticket,
    check_assignee_is_team_member env ts = .ok () ↔
    ∀ t ∈ ts, ∀ tid uid, t.team_id = some tid → t.user_id = some uid →
      uid ∈ teamMembers env tid := by
  intro ts
  induction ts with
  | nil => simp [check_assignee_is_team_member]
  | cons t rest ih =>
      cases ht : t.team_id with
      | none =>
          simp only [check_assignee_is_team_member, ht, List.mem_cons]
          rw [ih]
          constructor
          · intro h t' ht' tid uid h1 h2
            rcases ht' with rfl | ht'
            · rw [ht] at h1; cases h1
            · exact h t' ht' tid uid h1 h2
          · intro h t' ht' tid uid h1 h2
            exact h t' (Or.inr ht') tid uid h1 h2
      | some tid0 =>
          cases hu : t.user_id with
          | none =>
              simp only [check_assignee_is_team_member, ht, hu, List.mem_cons]
              rw [ih]
              constructor
              · intro h t' ht' tid uid h1 h2
                rcases ht' with rfl | ht'
                · rw [hu] at h2; cases h2
                · exact h t' ht' tid uid h1 h2
              · intro h t' ht' tid uid h1 h2
                exact h t' (Or.inr ht') tid uid h1 h2
          | some uid0 =>
              by_cases hmem : ((teamMembers env tid0).contains uid0) = true
              · simp only [check_assignee_is_team_member, ht, hu, hmem,
                  Bool.not_true, Bool.false_eq_true, if_false, List.mem_cons]
                rw [ih]
                constructor
                · intro h t' ht' tid uid h1 h2
                  rcases ht' with rfl | ht'
                  · rw [ht] at h1; rw [hu] at h2
                    cases h1; cases h2
                    exact List.mem_of_elem_eq_true hmem
                  · exact h t' ht' tid uid h1 h2
                · intro h t' ht' tid uid h1 h2
                  exact h t' (Or.inr ht') tid uid h1 h2
              · simp only [check_assignee_is_team_member, ht, hu,
                  Bool.not_eq_true] at hmem ⊢
                rw [hmem]
                simp only [Bool.not_false, if_true]
                constructor
                · intro h; cases h
                · intro h
                  exfalso
                  have := h t (List.mem_cons_self t rest) tid0 uid0 ht hu
                  have h2 := List.elem_eq_true_of_mem this
                  have h3 : List.elem uid0 (teamMembers env tid0) = false := hmem
                  rw [h3] at h2
                  cases h2

/-- C9 (confirmed): the `@api.constrains("team_id", "user_id")` check
passes exactly when every ticket with both a team and an assignee has the
assignee among the team's members; since the ORM runs the constraint
after every create and write and a raise aborts the mutation, this
membership property is an invariant of all successful ticket mutations. -/
theorem C9_assignee_is_team_member_invariant (env : OrmEnv) (ts : List Ticket) :
    constrainedMutation env ts = .ok ts ↔
    ∀ t ∈ ts, ∀ tid uid, t.team_id = some tid → t.user_id = some uid →
      uid ∈ teamMembers env tid := by
  rw [← check_assignee_ok_iff env ts]
  unfold constrainedMutation
  cases hc : check_assignee_is_team_member env ts with
  | ok u =>
      cases u
      constructor
      · intro _; rfl
      · intro _; rfl
  | error e =>
      constructor
      · intro h
        exact Except.noConfusion h
      · intro h; cases h

/-! ### C2 — collapsing to a single SLA -/

/-- C2 (counterexample): the claim says the *first-listed* policy is
retained.  For the batch set command `(6, 0, [2, 1])` the create-path
normalization keeps policy 1 — the first element CPython's set iteration
yields — not the first-listed policy 2. -/
theorem C2_counterexample :
    createNormalizeSlaCmds [M2MCmd.set [2, 1]] = [M2MCmd.set [1]] ∧
    createNormalizeSlaCmds [M2MCmd.set [2, 1]] ≠ [M2MCmd.set [2]] := by
  decide

theorem foldl_min_mem (x : Nat) (xs : List Nat) : xs.foldl Nat.min x ∈ x :: xs := by
  induction xs generalizing x with
  | nil => simp
  | cons y ys ih =>
      have h := ih (Nat.min x y)
      rw [List.foldl_cons]
      rcases List.mem_cons.mp h with h1 | h2
      · have hxy : Nat.min x y = x ∨ Nat.min x y = y := by
          rcases Nat.le_total x y with h2 | h2
          · exact Or.inl (Nat.min_eq_left h2)
          · exact Or.inr (Nat.min_eq_right h2)
        rw [h1]
        rcases hxy with h2 | h2
        · rw [h2]; exact List.mem_cons_self _ _
        · rw [h2]; exact List.mem_cons_of_mem _ (List.mem_cons_self _ _)
      · exact List.mem_cons_of_mem _ (List.mem_cons_of_mem _ h2)

/-- C2 (corrected): whenever a create or write leaves SLA commands whose
final id set is non-empty, exactly one policy is retained and it is an
element of the presented set — but which element is decided by CPython's
set iteration order (create) or the recordset order (write), not by the
caller's listing order. -/
theorem C2_single_sla_retained :
    (∀ cmds : List M2MCmd, cmds.foldl applyCmd [] ≠ [] →
      ∃ x, createNormalizeSlaCmds cmds = [M2MCmd.set [x]] ∧
        x ∈ cmds.foldl applyCmd []) ∧
    (∀ (a b : Nat) (rest : List Nat), writeCompressSlas (a :: b :: rest) = [a]) := by
  constructor
  · intro cmds hne
    have hc : ¬ cmds.isEmpty = true := by
      intro h
      rw [List.isEmpty_iff] at h
      subst h
      exact hne rfl
    obtain ⟨x, xs, hxx⟩ : ∃ y ys, cmds.foldl applyCmd [] = y :: ys := by
      cases h : cmds.foldl applyCmd [] with
      | nil => exact absurd h hne
      | cons y ys => exact ⟨y, ys, rfl⟩
    refine ⟨xs.foldl Nat.min x, ?_, ?_⟩
    · unfold createNormalizeSlaCmds
      rw [if_neg hc, hxx]
      rfl
    · rw [hxx]
      exact foldl_min_mem x xs
  · intro a b rest
    simp [writeCompressSlas]

/-- C2 (witness): the corrected theorem at the batch command
`(6, 0, [2, 1])` (exactly one policy retained, from the presented set)
and at a three-element write recordset. -/
theorem C2_witness :
    ([M2MCmd.set [2, 1]].foldl applyCmd [] ≠ []) ∧
    (∃ x, createNormalizeSlaCmds [M2MCmd.set [2, 1]] = [M2MCmd.set [x]] ∧
      x ∈ [M2MCmd.set [2, 1]].foldl applyCmd []) ∧
    writeCompressSlas [5, 6] = [5] :=
  ⟨by decide, C2_single_sla_retained.1 _ (by decide), C2_single_sla_retained.2 5 6 []⟩

/-! ### C1 / C10 — the SLA status cleanup -/

theorem slaFindLoop_singleton (P : SlaParams) (env : OrmEnv) (t : Ticket) :
    slaFindLoop P env [t] =
      if (t.sla_opt_out || !useSla env t) = true then ([], [])
      else ([(generateKey P t, [t])], [(generateKey P t, t)]) := by
  unfold slaFindLoop
  simp only [List.foldl_cons, List.foldl_nil]
  by_cases h1 : t.sla_opt_out = true
  · simp [h1]
  · by_cases h2 : useSla env t = true
    · simp [h1, h2, upsertGroup]
    · simp only [Bool.not_eq_true] at h1 h2
      simp [h1, h2]

/-- What `_sla_find` computes for a one-ticket recordset: nothing when
the ticket is skipped, otherwise one group holding the domain- and
tag-filtered policies. -/
theorem sla_find_singleton (P : SlaParams) (env : OrmEnv) (t : Ticket) :
    sla_find P env [t] =
      if (t.sla_opt_out || !useSla env t) = true then []
      else [([t],
        (env.slas.filter (slaSearchPred P env t)).filter
          (fun s => s.tag_ids.isEmpty || t.tag_ids.any (fun x => s.tag_ids.contains x)))] := by
  unfold sla_find
  rw [slaFindLoop_singleton]
  by_cases h : (t.sla_opt_out || !useSla env t) = true
  · simp [h]
  · simp only [h, if_false, Bool.false_eq_true]
    simp [groupTags, List.find?]

theorem matchedSlaIds_eq_filtered (P : SlaParams) (env : OrmEnv) (t : Ticket)
    (h : ¬ (t.sla_opt_out || !useSla env t) = true) :
    matchedSlaIds P env t =
      (((env.slas.filter (slaSearchPred P env t)).filter
        (fun s => s.tag_ids.isEmpty || t.tag_ids.any (fun x => s.tag_ids.contains x))).map (·.id)) := by
  unfold matchedSlaIds
  rw [if_neg h, List.filter_filter]
  congr 1
  apply List.filter_congr
  intro s _
  unfold slaAccepted
  rw [Bool.and_comm]

/-- C1 (counterexample): the claim says status records already marked
"reached" are preserved.  In the concrete scenario, ticket 1's status
record 100 is marked reached, its policy 10 no longer matches (it is
scoped to the unrelated category 3), and a category write still deletes
it. -/
theorem C1_counterexample :
    (⟨100, 1, 10, true⟩ : SlaStatus).reached = true ∧
    (⟨100, 1, 10, true⟩ : SlaStatus) ∈
      cleanup_obsolete_sla_statuses paramsW envW [ticketW] [.category_id] := by
  refine ⟨rfl, ?_⟩
  decide

/-- C1 (corrected): for every ticket write touching at least one SLA
trigger field, the cleanup deletes exactly those status records of the
ticket whose policy is not in the ticket's matched-SLA set — including
records already marked "reached", whose flag the cleanup never consults. -/
theorem C1_cleanup_deletes_exactly_nonmatching (P : SlaParams) (env : OrmEnv)
    (t : Ticket) (valsKeys : List TicketField)
    (htrig : valsKeys.any (fun k => (sla_reset_trigger P).contains k) = true) :
    ∀ st, st ∈ cleanup_obsolete_sla_statuses P env [t] valsKeys ↔
      (st ∈ statusesOf env t ∧ st.sla_id ∉ matchedSlaIds P env t) := by
  intro st
  unfold cleanup_obsolete_sla_statuses
  simp only [htrig, Bool.not_true, Bool.false_eq_true, if_false]
  rw [sla_find_singleton]
  by_cases h : (t.sla_opt_out || !useSla env t) = true
  · rw [if_pos h]
    have hm : matchedSlaIds P env t = [] := by
      unfold matchedSlaIds
      rw [if_pos h]
    rw [hm]
    simp [List.find?]
  · rw [if_neg h]
    rw [matchedSlaIds_eq_filtered P env t h]
    simp only [List.foldl_cons, List.foldl_nil, List.nil_append, List.map_cons,
      List.map_nil, List.find?]
    simp only [decide_True, Option.map_some', Option.getD_some]
    set S := (env.slas.filter (slaSearchPred P env t)).filter
      (fun s => s.tag_ids.isEmpty || t.tag_ids.any (fun x => s.tag_ids.contains x)) with hS
    by_cases hA : (S.map (fun x => x.id)).isEmpty = true
    · rw [List.isEmpty_iff] at hA
      rw [hA]
      simp
    · rw [Bool.not_eq_true] at hA
      rw [if_neg (by rw [hA]; exact Bool.false_ne_true)]
      rw [List.mem_filter]
      constructor
      · rintro ⟨h1, h2⟩
        refine ⟨h1, ?_⟩
        intro hmem
        have h3 : (List.map (fun x => x.id) S).contains st.sla_id = true :=
          List.elem_eq_true_of_mem hmem
        rw [h3] at h2
        simp at h2
      · rintro ⟨h1, h2⟩
        refine ⟨h1, ?_⟩
        cases hcon : (S.map (fun x => x.id)).contains st.sla_id with
        | false => rfl
        | true => exact absurd (List.mem_of_elem_eq_true hcon) h2

/-- C1 (witness): the corrected theorem on the concrete scenario — the
write touches the `category_id` trigger, status 100's policy 10 is not
matched any more, and the record is in the deletion set. -/
theorem C1_witness :
    ([TicketField.category_id].any
      (fun k => (sla_reset_trigger paramsW).contains k) = true) ∧
    ((⟨100, 1, 10, true⟩ : SlaStatus) ∈ statusesOf envW ticketW ∧
      (10 : Nat) ∉ matchedSlaIds paramsW envW ticketW) ∧
    (⟨100, 1, 10, true⟩ : SlaStatus) ∈
      cleanup_obsolete_sla_statuses paramsW envW [ticketW] [.category_id] := by
  refine ⟨by decide, ⟨by decide, by decide⟩, ?_⟩
  exact (C1_cleanup_deletes_exactly_nonmatching paramsW envW ticketW
    [.category_id] (by decide) ⟨100, 1, 10, true⟩).mpr ⟨by decide, by decide⟩

/-- C10 (confirmed): an opted-out ticket is skipped entirely by
`_sla_find` (no policies are returned for it, whatever its team,
category, priority, stage or tags), and consequently a write touching a
trigger field deletes all of its existing SLA status records. -/
theorem C10_opt_out_removes_all_statuses (P : SlaParams) (env : OrmEnv)
    (t : Ticket) (valsKeys : List TicketField)
    (hopt : t.sla_opt_out = true)
    (htrig : valsKeys.any (fun k => (sla_reset_trigger P).contains k) = true) :
    sla_find P env [t] = [] ∧
    cleanup_obsolete_sla_statuses P env [t] valsKeys = statusesOf env t := by
  have hskip : (t.sla_opt_out || !useSla env t) = true := by
    rw [hopt]; rfl
  constructor
  · rw [sla_find_singleton, if_pos hskip]
  · unfold cleanup_obsolete_sla_statuses
    simp only [htrig, Bool.not_true, Bool.false_eq_true, if_false]
    rw [sla_find_singleton, if_pos hskip]
    simp [List.find?]

/-- C10 (witness): ticket 2 (opted out) has its only status record 101
deleted by a write touching the `sla_opt_out` trigger. -/
theorem C10_witness :
    sla_find paramsW envW [ticketOpt] = [] ∧
    cleanup_obsolete_sla_statuses paramsW envW [ticketOpt] [.sla_opt_out] =
      statusesOf envW ticketOpt :=
  C10_opt_out_removes_all_statuses paramsW envW ticketOpt [.sla_opt_out]
    (by decide) (by decide)

/-! ### C4 — category-ancestry matching -/

theorem contains_false_of_not_mem {a : Nat} {l : List Nat} (h : a ∉ l) :
    l.contains a = false := by
  cases hc : l.contains a with
  | false => rfl
  | true => exact absurd (List.mem_of_elem_eq_true hc) h

theorem slaLeaf_id_in (env : OrmEnv) (s : SlaPolicy) (xs : List Nat) :
    slaLeaf env s "id" "in" (.vIds xs) = xs.contains s.id := rfl

theorem slaLeaf_id_eq (env : OrmEnv) (s : SlaPolicy) (n : Nat) :
    slaLeaf env s "id" "=" (.vNat n) = decide (s.id = n) := rfl

theorem slaLeaf_team_unset (env : OrmEnv) (s : SlaPolicy) :
    slaLeaf env s "team_id" "=" (.vBool false) = decide (s.team_id = none) := rfl

theorem slaLeaf_team_id (env : OrmEnv) (s : SlaPolicy) (x : Nat) :
    slaLeaf env s "team_id" "=" (.vNat x) = decide (s.team_id = some x) := rfl

theorem slaLeaf_priority_all (env : OrmEnv) (s : SlaPolicy) (bb : Bool) :
    slaLeaf env s "priority_all" "=" (.vBool bb) = decide (s.priority_all = bb) := rfl

theorem slaLeaf_priority (env : OrmEnv) (s : SlaPolicy) (p : String) :
    slaLeaf env s "priority" "=" (.vStr p) = decide (s.priority = p) := rfl

theorem slaLeaf_stage (env : OrmEnv) (s : SlaPolicy) (n : Int) :
    slaLeaf env s "stage_id.sequence" ">=" (.vInt n) =
      decide (n ≤ stageSeqOf env (some s.stage_id)) := rfl

theorem slaLeaf_cat_unset (env : OrmEnv) (s : SlaPolicy) :
    slaLeaf env s "category_ids" "=" (.vBool false) = s.category_ids.isEmpty := rfl

theorem slaLeaf_cat_in (env : OrmEnv) (s : SlaPolicy) (xs : List Nat) :
    slaLeaf env s "category_ids" "in" (.vIds xs) =
      s.category_ids.any (fun c => xs.contains c) := rfl

theorem slaLeaf_tag_unset (env : OrmEnv) (s : SlaPolicy) :
    slaLeaf env s "tag_ids" "=" (.vBool false) = s.tag_ids.isEmpty := rfl

theorem slaLeaf_tag_in (env : OrmEnv) (s : SlaPolicy) (xs : List Nat) :
    slaLeaf env s "tag_ids" "in" (.vIds xs) =
      s.tag_ids.any (fun c => xs.contains c) := rfl

/-- C4 (confirmed): for a ticket whose category has an ancestor chain,
both the SLA selection domain built by `_onchange_sla_ids_domain` and the
`_sla_find` candidate-acceptance test accept a policy scoped to an
ancestor category (`b`) and a category-agnostic policy, and reject a
policy scoped only to a category (`d`) outside the ancestor set —
whatever its other fields. -/
theorem C4_category_ancestry_matching (P : SlaParams) (env : OrmEnv) (t : Ticket)
    (pB pA pD : SlaPolicy) (c b d : Nat)
    (hc : t.category_id = some c)
    (hopt : t.sla_opt_out = false)
    (hsla : t.sla_ids = [])
    (hbanc : b ∈ ancestorIds env c)
    (hdanc : d ∉ ancestorIds env c)
    (hB1 : pB.category_ids = [b]) (hB2 : pB.team_id = none)
    (hB3 : pB.priority_all = true)
    (hB4 : stageSeqOf env t.stage_id ≤ stageSeqOf env (some pB.stage_id))
    (hB5 : pB.tag_ids = []) (hB6 : P.extraPred t pB = true)
    (hA1 : pA.category_ids = []) (hA2 : pA.team_id = none)
    (hA3 : pA.priority_all = true)
    (hA4 : stageSeqOf env t.stage_id ≤ stageSeqOf env (some pA.stage_id))
    (hA5 : pA.tag_ids = []) (hA6 : P.extraPred t pA = true)
    (hD1 : pD.category_ids = [d]) :
    evalToks (slaLeaf env pB) (onchange_sla_ids_domain env t) = true ∧
    evalToks (slaLeaf env pA) (onchange_sla_ids_domain env t) = true ∧
    evalToks (slaLeaf env pD) (onchange_sla_ids_domain env t) = false ∧
    slaAccepted P env t pB = true ∧
    slaAccepted P env t pA = true ∧
    slaAccepted P env t pD = false := by
  have hbcon : (ancestorIds env c).contains b = true := List.elem_eq_true_of_mem hbanc
  have hdcon : (ancestorIds env c).contains d = false := contains_false_of_not_mem hdanc
  have hsla2 : t.sla_ids.isEmpty = true := by rw [hsla]; rfl
  refine ⟨?_, ?_, ?_, ?_, ?_, ?_⟩ <;>
    [skip; skip; skip; skip; skip; skip] <;>
    · cases hteam : t.team_id <;> cases hstage : t.stage_id <;> cases htags : t.tag_ids <;>
        rw [hstage] at hB4 hA4 <;>
        simp [onchange_sla_ids_domain, mkBaseDomain, slaSearchPred, slaAccepted,
          evalToks, domStack, hc, hopt, hsla, hsla2, hteam, hstage, htags,
          slaLeaf_team_unset, slaLeaf_team_id, slaLeaf_priority_all, slaLeaf_priority,
          slaLeaf_stage, slaLeaf_cat_unset, slaLeaf_cat_in, slaLeaf_tag_unset,
          slaLeaf_tag_in, slaLeaf_id_eq, slaLeaf_id_in,
          hB1, hB2, hB3, hB4, hB5, hB6, hA1, hA2, hA3, hA4, hA5, hA6, hD1,
          hbcon, hdcon, hbanc, hdanc]

/-- C4 (witness): ticket 4 (category 20 with chain 20 → 21 → 22): the
policy scoped to ancestor 21 and the category-agnostic policy are
accepted, the policy scoped to the unrelated category 23 is rejected. -/
theorem C4_witness :
    (21 ∈ ancestorIds envW 20 ∧ 23 ∉ ancestorIds envW 20) ∧
    evalToks (slaLeaf envW polB) (onchange_sla_ids_domain envW ticketC4) = true ∧
    evalToks (slaLeaf envW polD) (onchange_sla_ids_domain envW ticketC4) = false ∧
    slaAccepted paramsW envW ticketC4 polB = true ∧
    slaAccepted paramsW envW ticketC4 polAg = true ∧
    slaAccepted paramsW envW ticketC4 polD = false := by
  have h := C4_category_ancestry_matching paramsW envW ticketC4 polB polAg polD
    20 21 23 rfl rfl rfl (by decide) (by decide) rfl rfl rfl (by decide) rfl rfl
    rfl rfl rfl (by decide) rfl rfl rfl
  exact ⟨⟨by decide, by decide⟩, h.1, h.2.2.1, h.2.2.2.1, h.2.2.2.2.1, h.2.2.2.2.2⟩

end Enterprise2
